import Mathlib

/-!
Shallow embedding of `src/miscellaneous/logger.py`.

The module wires a named `logging.Logger` to a console sink and a file sink,
caches which severity levels are active, exposes five severity methods and a
sticky `problem_occurred` flag, and a `replace_handlers` routine.

Modelling notes:
* Paths are lists of components; the filesystem is the set of existing
  directories.
* The registry of named loggers (`logging.getLogger`) is an association list;
  Python mutates loggers in place, which is modelled by threading the registry.
* `logging.Manager.disable` is 0 (never set by this program), so
  `isEnabledFor(lvl)` is `lvl >= getEffectiveLevel()`.
* A logger whose level is NOTSET (0) inherits the root logger's default
  level WARNING (30); the program always calls `setLevel` first, so this
  only fixes the meaning of `getEffectiveLevel` on fresh loggers.
* `logging.FileHandler` is a subclass of `logging.StreamHandler`, so an
  `isinstance(h, StreamHandler)` test is true for both handler kinds.
* Fallible operations (dict lookups that can raise `KeyError`, opening a file
  in a missing directory) return `Option`.
-/

/-- Filesystem paths as lists of components. -/
abbrev LogPath := List String

/-- The set of directories that exist. -/
abbrev FS := List LogPath

/-- The five severities of `LOG_LEVELS`. -/
inductive Severity
  | CRITICAL
  | ERROR
  | WARNING
  | INFO
  | DEBUG
deriving DecidableEq

/-- The dictionary key used for a severity. -/
def Severity.pyName : Severity → String
  | .CRITICAL => "CRITICAL"
  | .ERROR => "ERROR"
  | .WARNING => "WARNING"
  | .INFO => "INFO"
  | .DEBUG => "DEBUG"

/-- The numeric rank of a severity (`logging.CRITICAL` is 50, ..., `logging.DEBUG` is 10). -/
def Severity.rank : Severity → Nat
  | .CRITICAL => 50
  | .ERROR => 40
  | .WARNING => 30
  | .INFO => 20
  | .DEBUG => 10

/-- The severities whose facade method sets `problem_occurred`. -/
def Severity.isProblemLevel : Severity → Bool
  | .CRITICAL => true
  | .ERROR => true
  | .WARNING => true
  | .INFO => false
  | .DEBUG => false

/-- `LOG_LEVELS`: severity name to numeric level, in source order. -/
def LOG_LEVELS : List (String × Nat) :=
  [("CRITICAL", 50), ("ERROR", 40), ("WARNING", 30), ("INFO", 20), ("DEBUG", 10)]

/-- The two handler classes instantiated by the source. -/
inductive HandlerKind
  | stream
  | file
deriving DecidableEq

/-- A logging handler: its class, its `name` attribute (`None` unless assigned,
and this program never assigns it), its formatter's format string, its open
mode (for file handlers only; `"w"` truncates), and its file path. -/
structure Handler where
  kind : HandlerKind
  name : Option String
  fmt : String
  mode : Option String
  path : Option LogPath
deriving DecidableEq

/-- `isinstance(h, logging.StreamHandler)`: true for both kinds because
`FileHandler` subclasses `StreamHandler`. -/
def isStreamHandler (h : Handler) : Bool :=
  h.kind == .stream || h.kind == .file

/-- `isinstance(h, logging.FileHandler)`. -/
def isFileHandler (h : Handler) : Bool :=
  h.kind == .file

/-- Right-pad with spaces to width `w`, as `%-Ns` does. -/
def padRight (s : String) (w : Nat) : String :=
  s ++ String.mk (List.replicate (w - s.length) ' ')

/-- Interpretation of the two printf-style format strings appearing in the
source; any other format string is left as-is (none other occurs). -/
def applyFormat (fmt levelname asctime message : String) : String :=
  if fmt = "%(levelname)-8s %(message)s" then
    padRight levelname 8 ++ " " ++ message
  else if fmt = "%(levelname)-8s %(asctime)-3s %(message)s" then
    padRight levelname 8 ++ " " ++ padRight asctime 3 ++ " " ++ message
  else fmt

/-- The console handler built by `_get_logger`:
`logging.StreamHandler()` with formatter `"%(levelname)-8s %(message)s"`. -/
def consoleHandler : Handler :=
  ⟨.stream, none, "%(levelname)-8s %(message)s", none, none⟩

/-- An underlying `logging.Logger`: its level and attached handlers. -/
structure PyLogger where
  level : Nat
  handlers : List Handler
deriving DecidableEq

/-- A logger fresh out of `logging.getLogger`: level NOTSET, no handlers. -/
def freshLogger : PyLogger := ⟨0, []⟩

/-- `getEffectiveLevel`: NOTSET defers to the root logger's WARNING default. -/
def PyLogger.getEffectiveLevel (lg : PyLogger) : Nat :=
  if lg.level = 0 then 30 else lg.level

/-- `isEnabledFor` with `manager.disable = 0`. -/
def PyLogger.isEnabledFor (lg : PyLogger) (lvl : Nat) : Bool :=
  lg.getEffectiveLevel ≤ lvl

/-- One call of `logger.critical/.../debug`: when the level is enabled, every
attached handler writes one formatted line; otherwise nothing is written.
Returns the lines written, tagged by the handler kind that wrote them. -/
def PyLogger.emit (lg : PyLogger) (lvl : Nat) (levelname asctime message : String) :
    List (HandlerKind × String) :=
  if lg.isEnabledFor lvl then
    lg.handlers.map (fun h => (h.kind, applyFormat h.fmt levelname asctime message))
  else []

/-- The `logging` module's registry of named loggers. -/
abbrev Registry := List (String × PyLogger)

/-- `logging.getLogger(n)`: the registered logger, or a fresh one. -/
def getLogger (n : String) (reg : Registry) : PyLogger :=
  (reg.lookup n).getD freshLogger

/-- `Path.mkdir(parents=True, exist_ok=True)`: creates the directory and every
ancestor (each is a prefix of the component list). -/
def mkdirParents (fs : FS) (p : LogPath) : FS :=
  (List.range (p.length + 1)).map (fun k => p.take k) ++ fs

/-- The file handler built by `_get_logger`: `logging.FileHandler(save_path,
mode="w")` ("w" truncates) with formatter
`"%(levelname)-8s %(asctime)-3s %(message)s"`. -/
def fileHandlerFor (save_path : LogPath) : Handler :=
  ⟨.file, none, "%(levelname)-8s %(asctime)-3s %(message)s", some "w", some save_path⟩

/-- Opening the file handler fails when the parent directory does not exist. -/
def openFileHandler (fs : FS) (save_path : LogPath) : Option Handler :=
  if fs.contains save_path.dropLast then some (fileHandlerFor save_path)
  else none

/-- The optional `settings` object: `hasattr` probes become `Option` fields. -/
structure SettingsObj where
  log_level : Option String
  save_path : Option LogPath
  logger_name : Option String
deriving DecidableEq

/-- Ambient inputs of construction: whether `settings` was imported
(`"settings" in sys.modules`), the settings object, `Path(sys.argv[0]).parents[1]`,
and `datetime.now().strftime("%Y.%m.%d")`. -/
structure Env where
  settingsImported : Bool
  settings : SettingsObj
  argv0Parent1 : LogPath
  today : String
deriving DecidableEq

namespace DEFAULT_VALUES

def log_level : String := "INFO"

def logger_name : String := "main_logger"

/-- `Path(sys.argv[0]).parents[1] / "logs" / (date + ".log")`. -/
def save_path (env : Env) : LogPath :=
  env.argv0Parent1 ++ ["logs", env.today ++ ".log"]

end DEFAULT_VALUES

/-- `Logger._get_data_from_settings`: defaults, each overridden by the
corresponding settings attribute when `settings` was imported and has it. -/
def get_data_from_settings (env : Env) : String × LogPath × String :=
  if env.settingsImported then
    (env.settings.log_level.getD DEFAULT_VALUES.log_level,
     env.settings.save_path.getD (DEFAULT_VALUES.save_path env),
     env.settings.logger_name.getD DEFAULT_VALUES.logger_name)
  else
    (DEFAULT_VALUES.log_level, DEFAULT_VALUES.save_path env, DEFAULT_VALUES.logger_name)

/-- `Logger._get_logger`: fetch the named logger, set its level
(`LOG_LEVELS[log_level]` can raise `KeyError`), attach a console handler if the
logger has no `StreamHandler` instance, and attach a file handler — creating the
log directory first — if it has no `FileHandler`.  Returns the logger and the
updated registry and filesystem. -/
def get_logger (log_level : String) (save_path : LogPath) (logger_name : String)
    (reg : Registry) (fs : FS) : Option (PyLogger × Registry × FS) :=
  match LOG_LEVELS.lookup log_level with
  | none => none
  | some lvl =>
    let handlers0 := (getLogger logger_name reg).handlers
    let stream_handlers := handlers0.filter isStreamHandler
    let file_handlers := handlers0.filter isFileHandler
    let handlers1 :=
      if stream_handlers.length = 0 then handlers0 ++ [consoleHandler] else handlers0
    if file_handlers.length = 0 then
      let fs1 := mkdirParents fs save_path.dropLast
      match openFileHandler fs1 save_path with
      | none => none
      | some fh =>
        some (⟨lvl, handlers1 ++ [fh]⟩, (logger_name, ⟨lvl, handlers1 ++ [fh]⟩) :: reg, fs1)
    else
      some (⟨lvl, handlers1⟩, (logger_name, ⟨lvl, handlers1⟩) :: reg, fs)

/-- The `Logger` facade (a pydantic model): the underlying logger, the cached
activation dictionary, the sticky `problem_occurred` flag, and the save path. -/
structure Logger where
  logger : PyLogger
  log_level_is_on : List (String × Bool)
  problem_occurred : Bool := false
  save_path : LogPath
deriving DecidableEq

/-- `Logger.__init__`: read the configuration, set up the underlying logger,
cache `isEnabledFor` per `LOG_LEVELS` entry, and build the facade with
`problem_occurred = False`. -/
def Logger.init (env : Env) (reg : Registry) (fs : FS) :
    Option (Logger × Registry × FS) :=
  let d := get_data_from_settings env
  match get_logger d.1 d.2.1 d.2.2 reg fs with
  | none => none
  | some (lg, reg1, fs1) =>
    some (⟨lg, LOG_LEVELS.map (fun kv => (kv.1, lg.isEnabledFor kv.2)), false, d.2.1⟩,
          reg1, fs1)

/-- `Logger.critical`: gate on the cached flag (a dict access that can raise
`KeyError`), set `problem_occurred`, and forward to the underlying logger. -/
def Logger.critical (self : Logger) (msg asctime : String) :
    Option (Logger × List (HandlerKind × String)) :=
  match self.log_level_is_on.lookup "CRITICAL" with
  | none => none
  | some b =>
    if b then
      some (⟨self.logger, self.log_level_is_on, true, self.save_path⟩,
            self.logger.emit 50 "CRITICAL" asctime msg)
    else some (self, [])

/-- `Logger.error`. -/
def Logger.error (self : Logger) (msg asctime : String) :
    Option (Logger × List (HandlerKind × String)) :=
  match self.log_level_is_on.lookup "ERROR" with
  | none => none
  | some b =>
    if b then
      some (⟨self.logger, self.log_level_is_on, true, self.save_path⟩,
            self.logger.emit 40 "ERROR" asctime msg)
    else some (self, [])

/-- `Logger.warning`. -/
def Logger.warning (self : Logger) (msg asctime : String) :
    Option (Logger × List (HandlerKind × String)) :=
  match self.log_level_is_on.lookup "WARNING" with
  | none => none
  | some b =>
    if b then
      some (⟨self.logger, self.log_level_is_on, true, self.save_path⟩,
            self.logger.emit 30 "WARNING" asctime msg)
    else some (self, [])

/-- `Logger.info`: forwards without touching `problem_occurred`. -/
def Logger.info (self : Logger) (msg asctime : String) :
    Option (Logger × List (HandlerKind × String)) :=
  match self.log_level_is_on.lookup "INFO" with
  | none => none
  | some b =>
    if b then some (self, self.logger.emit 20 "INFO" asctime msg)
    else some (self, [])

/-- `Logger.debug`: forwards without touching `problem_occurred`. -/
def Logger.debug (self : Logger) (msg asctime : String) :
    Option (Logger × List (HandlerKind × String)) :=
  match self.log_level_is_on.lookup "DEBUG" with
  | none => none
  | some b =>
    if b then some (self, self.logger.emit 10 "DEBUG" asctime msg)
    else some (self, [])

/-- Dispatch to the severity method named by `s`. -/
def Logger.callMethod (self : Logger) (s : Severity) (msg asctime : String) :
    Option (Logger × List (HandlerKind × String)) :=
  match s with
  | .CRITICAL => self.critical msg asctime
  | .ERROR => self.error msg asctime
  | .WARNING => self.warning msg asctime
  | .INFO => self.info msg asctime
  | .DEBUG => self.debug msg asctime

/-- `Logger.replace_handlers`: remove the handlers whose `name` attribute equals
the configured logger name, then run `_get_logger` again.  In Python
`self.logger` aliases the registry's entry for its name, so the second step sees
the logger with the removed handlers; the registry passed to `get_logger` holds
exactly that logger. -/
def Logger.replace_handlers (self : Logger) (env : Env) (fs : FS) :
    Option (Logger × FS) :=
  let logger_name0 := (get_data_from_settings env).2.2
  let lg1 : PyLogger :=
    ⟨self.logger.level, self.logger.handlers.filter (fun h => h.name != some logger_name0)⟩
  let d := get_data_from_settings env
  match get_logger d.1 d.2.1 d.2.2 [(d.2.2, lg1)] fs with
  | none => none
  | some (lg2, _, fs1) =>
    some (⟨lg2, self.log_level_is_on, self.problem_occurred, self.save_path⟩, fs1)

/-! ### Concrete fixtures used by witnesses -/

/-- No `settings` module; script directory parent `["app"]`; a fixed date. -/
def sampleEnv : Env := ⟨false, ⟨none, none, none⟩, ["app"], "2026.01.01"⟩

def dummyFacade : Logger := ⟨freshLogger, [], false, []⟩

/-- Construction from an empty registry and an empty filesystem. -/
def sampleInit : Option (Logger × Registry × FS) := Logger.init sampleEnv [] []

def sampleFacade : Logger := (sampleInit.map (fun r => r.1)).getD dummyFacade

def sampleFS : FS := (sampleInit.map (fun r => r.2.2)).getD []

def sampleReg : Registry := (sampleInit.map (fun r => r.2.1)).getD []

/-- The sample facade after a problem has been recorded. -/
def sampleFacadeP : Logger :=
  ⟨sampleFacade.logger, sampleFacade.log_level_is_on, true, sampleFacade.save_path⟩

/-! ### Claims -/

/-- C1: for every severity whose cached activation flag is true, the facade
method forwards the message to the underlying logger (one emit call at the
severity's level and name); for CRITICAL/ERROR/WARNING it also sets
`problem_occurred` to true, while INFO and DEBUG leave it unchanged. -/
theorem C1_active_flag_forwards (l : Logger) (s : Severity) (msg asctime : String)
    (h : l.log_level_is_on.lookup s.pyName = some true) :
    l.callMethod s msg asctime =
      some (⟨l.logger, l.log_level_is_on, s.isProblemLevel || l.problem_occurred, l.save_path⟩,
            l.logger.emit s.rank s.pyName asctime msg) := by
  cases s <;>
    simp only [Severity.pyName, Severity.rank, Severity.isProblemLevel] at h ⊢ <;>
    simp [Logger.callMethod, Logger.critical, Logger.error, Logger.warning, Logger.info,
      Logger.debug, h]

theorem C1_witness :
    sampleFacade.log_level_is_on.lookup (Severity.WARNING).pyName = some true ∧
    sampleFacade.callMethod .WARNING "disk low" "12:00" =
      some (⟨sampleFacade.logger, sampleFacade.log_level_is_on,
             Severity.WARNING.isProblemLevel || sampleFacade.problem_occurred,
             sampleFacade.save_path⟩,
            sampleFacade.logger.emit Severity.WARNING.rank Severity.WARNING.pyName
              "12:00" "disk low") :=
  ⟨by decide, C1_active_flag_forwards sampleFacade .WARNING "disk low" "12:00" (by decide)⟩

/-- C4: `problem_occurred` is sticky — once true, it is still true after any
severity method call, whichever branch that call takes. -/
theorem C4_problem_occurred_sticky (l : Logger) (s : Severity) (msg asctime : String)
    (l1 : Logger) (out : List (HandlerKind × String))
    (hp : l.problem_occurred = true)
    (h : l.callMethod s msg asctime = some (l1, out)) :
    l1.problem_occurred = true := by
  cases s <;>
    simp only [Logger.callMethod, Logger.critical, Logger.error, Logger.warning, Logger.info,
      Logger.debug] at h <;>
    split at h <;>
    [exact Option.noConfusion h; skip; exact Option.noConfusion h; skip;
     exact Option.noConfusion h; skip; exact Option.noConfusion h; skip;
     exact Option.noConfusion h; skip] <;>
    split at h <;>
    simp only [Option.some.injEq, Prod.mk.injEq] at h <;>
    rw [← h.1] <;>
    first
    | rfl
    | exact hp

theorem C4_witness :
    sampleFacadeP.problem_occurred = true ∧
    sampleFacadeP.callMethod .INFO "m" "t" =
      some (sampleFacadeP, sampleFacadeP.logger.emit 20 "INFO" "t" "m") ∧
    sampleFacadeP.problem_occurred = true :=
  ⟨rfl, by decide,
   C4_problem_occurred_sticky sampleFacadeP .INFO "m" "t" sampleFacadeP
     (sampleFacadeP.logger.emit 20 "INFO" "t" "m") rfl (by decide)⟩

/-- C9: `info` and `debug` never change `problem_occurred`, also when the
severity is active and the message is forwarded to the sinks. -/
theorem C9_info_debug_frame (l : Logger) (msg asctime : String)
    (li ld : Logger) (oi od : List (HandlerKind × String))
    (hi : l.info msg asctime = some (li, oi))
    (hd : l.debug msg asctime = some (ld, od)) :
    li.problem_occurred = l.problem_occurred ∧ ld.problem_occurred = l.problem_occurred := by
  constructor
  · simp only [Logger.info] at hi
    split at hi
    · exact Option.noConfusion hi
    · split at hi <;>
        simp only [Option.some.injEq, Prod.mk.injEq] at hi <;> rw [← hi.1]
  · simp only [Logger.debug] at hd
    split at hd
    · exact Option.noConfusion hd
    · split at hd <;>
        simp only [Option.some.injEq, Prod.mk.injEq] at hd <;> rw [← hd.1]

theorem C9_witness :
    (sampleFacade.info "starting" "t" =
        some (sampleFacade, sampleFacade.logger.emit 20 "INFO" "t" "starting")) ∧
    (sampleFacade.debug "d" "t" = some (sampleFacade, [])) ∧
    (sampleFacade.problem_occurred = sampleFacade.problem_occurred ∧
     sampleFacade.problem_occurred = sampleFacade.problem_occurred) :=
  ⟨by decide, by decide,
   C9_info_debug_frame sampleFacade "starting" "t" sampleFacade sampleFacade
     (sampleFacade.logger.emit 20 "INFO" "t" "starting") [] (by decide) (by decide)⟩

/-! ### Helper lemmas shared by several claims -/

theorem getLogger_cons_self (n : String) (x : PyLogger) (reg : Registry) :
    getLogger n ((n, x) :: reg) = x := by
  simp [getLogger, List.lookup]

theorem mkdirParents_contains_self (fs : FS) (p : LogPath) :
    (mkdirParents fs p).contains p = true := by
  have hmem : p ∈ mkdirParents fs p := by
    unfold mkdirParents
    refine List.mem_append_left _ ?_
    refine List.mem_map.mpr ⟨p.length, ?_, List.take_length p⟩
    exact List.mem_range.mpr (Nat.lt_succ_self _)
  exact List.elem_eq_true_of_mem hmem

theorem cache_lookup (lg : PyLogger) (s : Severity) :
    List.lookup s.pyName (LOG_LEVELS.map (fun kv => (kv.1, lg.isEnabledFor kv.2))) =
      some (lg.isEnabledFor s.rank) := by
  cases s <;> rfl

theorem get_logger_level (L : String) (p : LogPath) (n : String) (reg : Registry) (fs : FS)
    (lg : PyLogger) (reg1 : Registry) (fs1 : FS)
    (h : get_logger L p n reg fs = some (lg, reg1, fs1)) :
    LOG_LEVELS.lookup L = some lg.level := by
  unfold get_logger at h
  split at h
  · exact Option.noConfusion h
  next lvl heq =>
    rw [heq]
    dsimp only at h
    split at h
    · split at h
      · exact Option.noConfusion h
      · simp only [Option.some.injEq, Prod.mk.injEq] at h
        rw [← h.1]
    · simp only [Option.some.injEq, Prod.mk.injEq] at h
      rw [← h.1]

theorem get_logger_fresh (L : String) (p : LogPath) (n : String) (reg : Registry) (fs : FS)
    (t : Nat)
    (ht : LOG_LEVELS.lookup L = some t)
    (hfresh : getLogger n reg = freshLogger) :
    get_logger L p n reg fs =
      some (⟨t, [consoleHandler, fileHandlerFor p]⟩,
            (n, ⟨t, [consoleHandler, fileHandlerFor p]⟩) :: reg,
            mkdirParents fs p.dropLast) := by
  have hopen : openFileHandler (mkdirParents fs p.dropLast) p = some (fileHandlerFor p) := by
    unfold openFileHandler
    rw [if_pos (mkdirParents_contains_self fs p.dropLast)]
  unfold get_logger
  rw [ht, hfresh]
  simp [freshLogger, hopen]

theorem get_logger_no_attach (L : String) (p : LogPath) (n : String) (reg : Registry) (fs : FS)
    (t : Nat)
    (ht : LOG_LEVELS.lookup L = some t)
    (hs : (getLogger n reg).handlers.filter isStreamHandler ≠ [])
    (hf : (getLogger n reg).handlers.filter isFileHandler ≠ []) :
    get_logger L p n reg fs =
      some (⟨t, (getLogger n reg).handlers⟩,
            (n, ⟨t, (getLogger n reg).handlers⟩) :: reg, fs) := by
  unfold get_logger
  rw [ht]
  simp [List.length_eq_zero, hs, hf]

/-- C6: with no external configuration (`settings` not imported), construction
reads the defaults: severity threshold `"INFO"`, logger name `"main_logger"`,
and a save path `<script dir parent>/logs/<current date>.log`. -/
theorem C6_defaults_without_settings (env : Env) (h : env.settingsImported = false) :
    get_data_from_settings env =
      ("INFO", env.argv0Parent1 ++ ["logs", env.today ++ ".log"], "main_logger") := by
  simp [get_data_from_settings, h, DEFAULT_VALUES.log_level, DEFAULT_VALUES.logger_name,
    DEFAULT_VALUES.save_path]

theorem C6_witness :
    sampleEnv.settingsImported = false ∧
    get_data_from_settings sampleEnv =
      ("INFO", sampleEnv.argv0Parent1 ++ ["logs", sampleEnv.today ++ ".log"], "main_logger") :=
  ⟨rfl, C6_defaults_without_settings sampleEnv rfl⟩

/-- C2 fails on the code: `replace_handlers` (the spec's `reset()`) does not
touch `problem_occurred`.  On a facade whose flag is true, it is still true
after the call. -/
theorem C2_counterexample :
    sampleFacadeP.problem_occurred = true ∧
    (sampleFacadeP.replace_handlers sampleEnv sampleFS).map
        (fun r => r.1.problem_occurred) = some true := by
  exact ⟨rfl, by decide⟩

/-- C2 (amended): `replace_handlers` leaves `problem_occurred` unchanged, and —
because the handlers attached by construction carry no `name`, so none equals
the configured logger name — it detaches nothing; re-running the construction
path attaches nothing either when a stream and a file handler are already
present, so the logger keeps exactly the handlers it had (in particular still
exactly one console sink and one file sink after a normal construction). -/
theorem C2_amended_replace_handlers_noop (l : Logger) (env : Env) (fs : FS) (t : Nat)
    (ht : LOG_LEVELS.lookup (get_data_from_settings env).1 = some t)
    (hname : ∀ h ∈ l.logger.handlers, h.name = none)
    (hs : l.logger.handlers.filter isStreamHandler ≠ [])
    (hf : l.logger.handlers.filter isFileHandler ≠ []) :
    l.replace_handlers env fs =
      some (⟨⟨t, l.logger.handlers⟩, l.log_level_is_on, l.problem_occurred, l.save_path⟩, fs) := by
  have hfilt : l.logger.handlers.filter
      (fun h => h.name != some (get_data_from_settings env).2.2) = l.logger.handlers := by
    refine List.filter_eq_self.mpr ?_
    intro a ha
    simp [hname a ha]
  unfold Logger.replace_handlers
  dsimp only
  rw [hfilt]
  rw [get_logger_no_attach _ _ _ _ _ t ht]
  · rw [getLogger_cons_self]
  · rw [getLogger_cons_self]
    exact hs
  · rw [getLogger_cons_self]
    exact hf

theorem C2_amended_witness :
    (LOG_LEVELS.lookup (get_data_from_settings sampleEnv).1 = some 20) ∧
    (∀ h ∈ sampleFacadeP.logger.handlers, h.name = none) ∧
    (sampleFacadeP.logger.handlers.filter isStreamHandler ≠ []) ∧
    (sampleFacadeP.logger.handlers.filter isFileHandler ≠ []) ∧
    sampleFacadeP.replace_handlers sampleEnv sampleFS =
      some (⟨⟨20, sampleFacadeP.logger.handlers⟩, sampleFacadeP.log_level_is_on,
             sampleFacadeP.problem_occurred, sampleFacadeP.save_path⟩, sampleFS) :=
  ⟨by decide, by decide, by decide, by decide,
   C2_amended_replace_handlers_noop sampleFacadeP sampleEnv sampleFS 20
     (by decide) (by decide) (by decide) (by decide)⟩

/-- C7: with a valid severity name, `_get_logger` never fails, whatever the
filesystem state: when a file handler must be attached the log directory and
its parents are created first, so opening the file sink succeeds, and the
resulting filesystem contains the log directory. -/
theorem C7_mkdir_before_open (L : String) (p : LogPath) (n : String) (reg : Registry)
    (fs : FS) (t : Nat)
    (ht : LOG_LEVELS.lookup L = some t) :
    (get_logger L p n reg fs).isSome = true ∧
    (((getLogger n reg).handlers.filter isFileHandler).length = 0 →
      ∀ lg reg1 fs1, get_logger L p n reg fs = some (lg, reg1, fs1) →
        fs1.contains p.dropLast = true) := by
  have hopen : openFileHandler (mkdirParents fs p.dropLast) p = some (fileHandlerFor p) := by
    unfold openFileHandler
    rw [if_pos (mkdirParents_contains_self fs p.dropLast)]
  unfold get_logger
  rw [ht]
  dsimp only
  by_cases hc : (List.filter isFileHandler (getLogger n reg).handlers).length = 0
  · rw [if_pos hc, hopen]
    refine ⟨rfl, ?_⟩
    intro _ lg reg1 fs1 hsome
    simp only [Option.some.injEq, Prod.mk.injEq] at hsome
    rw [← hsome.2.2]
    exact mkdirParents_contains_self fs p.dropLast
  · rw [if_neg hc]
    exact ⟨rfl, fun hfz => absurd hfz hc⟩

theorem C7_witness :
    LOG_LEVELS.lookup "INFO" = some 20 ∧
    ((get_logger "INFO" ["app", "logs", "x.log"] "main_logger" [] []).isSome = true ∧
     (((getLogger "main_logger" ([] : Registry)).handlers.filter isFileHandler).length = 0 →
       ∀ lg reg1 fs1,
         get_logger "INFO" ["app", "logs", "x.log"] "main_logger" [] [] =
           some (lg, reg1, fs1) →
         fs1.contains (["app", "logs", "x.log"] : LogPath).dropLast = true)) :=
  ⟨by decide, C7_mkdir_before_open "INFO" ["app", "logs", "x.log"] "main_logger" [] [] 20
    (by decide)⟩

/-- C8: constructing against a fresh logger attaches exactly the console
handler and the file handler; the console formatter renders `LEVEL message`,
the file formatter renders `LEVEL timestamp message`, and the file handler is
opened with mode `"w"` (truncate/overwrite). -/
theorem C8_sink_formats (L : String) (p : LogPath) (n : String) (reg : Registry) (fs : FS)
    (t : Nat) (lg : PyLogger) (reg1 : Registry) (fs1 : FS)
    (ht : LOG_LEVELS.lookup L = some t)
    (hfresh : getLogger n reg = freshLogger)
    (h : get_logger L p n reg fs = some (lg, reg1, fs1)) :
    lg.handlers = [consoleHandler, fileHandlerFor p] ∧
    consoleHandler.kind = HandlerKind.stream ∧
    (fileHandlerFor p).kind = HandlerKind.file ∧
    (∀ lvl asctime msg, applyFormat consoleHandler.fmt lvl asctime msg =
        padRight lvl 8 ++ " " ++ msg) ∧
    (∀ lvl asctime msg, applyFormat (fileHandlerFor p).fmt lvl asctime msg =
        padRight lvl 8 ++ " " ++ padRight asctime 3 ++ " " ++ msg) ∧
    (fileHandlerFor p).mode = some "w" := by
  rw [get_logger_fresh L p n reg fs t ht hfresh] at h
  simp only [Option.some.injEq, Prod.mk.injEq] at h
  refine ⟨by rw [← h.1], rfl, rfl, ?_, ?_, rfl⟩
  · intro lvl asctime msg
    simp [applyFormat, consoleHandler]
  · intro lvl asctime msg
    simp [applyFormat, fileHandlerFor]

theorem C8_witness :
    (LOG_LEVELS.lookup "INFO" = some 20) ∧
    (getLogger "main_logger" ([] : Registry) = freshLogger) ∧
    (get_logger "INFO" ["app", "logs", "x.log"] "main_logger" [] [] =
      some (⟨20, [consoleHandler, fileHandlerFor ["app", "logs", "x.log"]]⟩,
            [("main_logger",
              (⟨20, [consoleHandler, fileHandlerFor ["app", "logs", "x.log"]]⟩ : PyLogger))],
            mkdirParents [] (["app", "logs", "x.log"] : LogPath).dropLast)) ∧
    ((⟨20, [consoleHandler, fileHandlerFor ["app", "logs", "x.log"]]⟩ : PyLogger).handlers =
        [consoleHandler, fileHandlerFor ["app", "logs", "x.log"]] ∧
     consoleHandler.kind = HandlerKind.stream ∧
     (fileHandlerFor ["app", "logs", "x.log"]).kind = HandlerKind.file ∧
     (∀ lvl asctime msg, applyFormat consoleHandler.fmt lvl asctime msg =
         padRight lvl 8 ++ " " ++ msg) ∧
     (∀ lvl asctime msg, applyFormat (fileHandlerFor ["app", "logs", "x.log"]).fmt
          lvl asctime msg =
         padRight lvl 8 ++ " " ++ padRight asctime 3 ++ " " ++ msg) ∧
     (fileHandlerFor ["app", "logs", "x.log"]).mode = some "w") :=
  ⟨by decide, rfl, by decide,
   C8_sink_formats "INFO" ["app", "logs", "x.log"] "main_logger" [] [] 20
     ⟨20, [consoleHandler, fileHandlerFor ["app", "logs", "x.log"]]⟩
     [("main_logger", ⟨20, [consoleHandler, fileHandlerFor ["app", "logs", "x.log"]]⟩)]
     (mkdirParents [] (["app", "logs", "x.log"] : LogPath).dropLast)
     (by decide) rfl (by decide)⟩

/-- C5: after construction with a valid configured threshold, every severity
strictly below the threshold forwards nothing to the underlying logger (no sink
output) and leaves the facade, `problem_occurred` included, unchanged. -/
theorem C5_below_threshold_noop (env : Env) (reg : Registry) (fs : FS)
    (l : Logger) (reg1 : Registry) (fs1 : FS) (t : Nat) (s : Severity)
    (msg asctime : String)
    (hinit : Logger.init env reg fs = some (l, reg1, fs1))
    (ht : LOG_LEVELS.lookup (get_data_from_settings env).1 = some t)
    (hs : s.rank < t) :
    l.callMethod s msg asctime = some (l, []) := by
  unfold Logger.init at hinit
  dsimp only at hinit
  split at hinit
  · exact Option.noConfusion hinit
  next lg reg2 fs2 heq =>
    simp only [Option.some.injEq, Prod.mk.injEq] at hinit
    obtain ⟨hl, _, _⟩ := hinit
    have hlvl : lg.level = t := by
      have hx := get_logger_level _ _ _ _ _ _ _ _ heq
      rw [ht] at hx
      exact (Option.some.inj hx).symm
    have hflag : lg.isEnabledFor s.rank = false := by
      have h10 : 10 ≤ s.rank := by cases s <;> simp [Severity.rank]
      simp only [PyLogger.isEnabledFor, PyLogger.getEffectiveLevel, hlvl]
      rw [if_neg (by omega)]
      simp only [decide_eq_false_iff_not]
      omega
    subst hl
    cases s with
    | CRITICAL =>
      have hk := cache_lookup lg .CRITICAL
      simp only [Severity.pyName, Severity.rank] at hk hflag
      simp [Logger.callMethod, Logger.critical, hk, hflag]
    | ERROR =>
      have hk := cache_lookup lg .ERROR
      simp only [Severity.pyName, Severity.rank] at hk hflag
      simp [Logger.callMethod, Logger.error, hk, hflag]
    | WARNING =>
      have hk := cache_lookup lg .WARNING
      simp only [Severity.pyName, Severity.rank] at hk hflag
      simp [Logger.callMethod, Logger.warning, hk, hflag]
    | INFO =>
      have hk := cache_lookup lg .INFO
      simp only [Severity.pyName, Severity.rank] at hk hflag
      simp [Logger.callMethod, Logger.info, hk, hflag]
    | DEBUG =>
      have hk := cache_lookup lg .DEBUG
      simp only [Severity.pyName, Severity.rank] at hk hflag
      simp [Logger.callMethod, Logger.debug, hk, hflag]

theorem C5_witness :
    (Logger.init sampleEnv [] [] = some (sampleFacade, sampleReg, sampleFS)) ∧
    (LOG_LEVELS.lookup (get_data_from_settings sampleEnv).1 = some 20) ∧
    (Severity.DEBUG.rank < 20) ∧
    sampleFacade.callMethod .DEBUG "noise" "t" = some (sampleFacade, []) :=
  ⟨by decide, by decide, by decide,
   C5_below_threshold_noop sampleEnv [] [] sampleFacade sampleReg sampleFS 20 .DEBUG
     "noise" "t" (by decide) (by decide) (by decide)⟩

/-- C10: the activation cache built by construction has exactly the five keys
CRITICAL, ERROR, WARNING, INFO, DEBUG in order, and every severity method's
dictionary lookup succeeds — no method ever hits the missing-key branch. -/
theorem C10_cache_complete (env : Env) (reg : Registry) (fs : FS)
    (l : Logger) (reg1 : Registry) (fs1 : FS)
    (hinit : Logger.init env reg fs = some (l, reg1, fs1)) :
    l.log_level_is_on.map Prod.fst = ["CRITICAL", "ERROR", "WARNING", "INFO", "DEBUG"] ∧
    ∀ (s : Severity) (msg asctime : String), (l.callMethod s msg asctime).isSome = true := by
  unfold Logger.init at hinit
  dsimp only at hinit
  split at hinit
  · exact Option.noConfusion hinit
  next lg reg2 fs2 heq =>
    simp only [Option.some.injEq, Prod.mk.injEq] at hinit
    obtain ⟨hl, _, _⟩ := hinit
    subst hl
    refine ⟨rfl, ?_⟩
    intro s msg asctime
    cases s with
    | CRITICAL =>
      have hk := cache_lookup lg .CRITICAL
      simp only [Severity.pyName, Severity.rank] at hk
      cases hb : lg.isEnabledFor 50 <;>
        simp [Logger.callMethod, Logger.critical, hk, hb]
    | ERROR =>
      have hk := cache_lookup lg .ERROR
      simp only [Severity.pyName, Severity.rank] at hk
      cases hb : lg.isEnabledFor 40 <;>
        simp [Logger.callMethod, Logger.error, hk, hb]
    | WARNING =>
      have hk := cache_lookup lg .WARNING
      simp only [Severity.pyName, Severity.rank] at hk
      cases hb : lg.isEnabledFor 30 <;>
        simp [Logger.callMethod, Logger.warning, hk, hb]
    | INFO =>
      have hk := cache_lookup lg .INFO
      simp only [Severity.pyName, Severity.rank] at hk
      cases hb : lg.isEnabledFor 20 <;>
        simp [Logger.callMethod, Logger.info, hk, hb]
    | DEBUG =>
      have hk := cache_lookup lg .DEBUG
      simp only [Severity.pyName, Severity.rank] at hk
      cases hb : lg.isEnabledFor 10 <;>
        simp [Logger.callMethod, Logger.debug, hk, hb]

theorem C10_witness :
    (Logger.init sampleEnv [] [] = some (sampleFacade, sampleReg, sampleFS)) ∧
    (sampleFacade.log_level_is_on.map Prod.fst =
      ["CRITICAL", "ERROR", "WARNING", "INFO", "DEBUG"] ∧
     ∀ (s : Severity) (msg asctime : String),
       (sampleFacade.callMethod s msg asctime).isSome = true) :=
  ⟨by decide,
   C10_cache_complete sampleEnv [] [] sampleFacade sampleReg sampleFS (by decide)⟩

/-- C3: constructing twice against the same (fresh) logger name attaches the
console and file sinks once: the first construction leaves exactly one console
handler and one file handler, and the second construction attaches nothing —
the handler list and the registered logger are unchanged. -/
theorem C3_repeated_construction (env : Env) (reg : Registry) (fs : FS) (t : Nat)
    (ht : LOG_LEVELS.lookup (get_data_from_settings env).1 = some t)
    (hfresh : getLogger (get_data_from_settings env).2.2 reg = freshLogger) :
    ∃ l1 reg1 fs1 l2 reg2 fs2,
      Logger.init env reg fs = some (l1, reg1, fs1) ∧
      Logger.init env reg1 fs1 = some (l2, reg2, fs2) ∧
      l1.logger.handlers =
        [consoleHandler, fileHandlerFor (get_data_from_settings env).2.1] ∧
      l2.logger.handlers = l1.logger.handlers ∧
      (l1.logger.handlers.filter fun h => isStreamHandler h && !(isFileHandler h)).length = 1 ∧
      (l1.logger.handlers.filter isFileHandler).length = 1 ∧
      (getLogger (get_data_from_settings env).2.2 reg2).handlers = l1.logger.handlers := by
  have h1 : Logger.init env reg fs =
      some (⟨⟨t, [consoleHandler, fileHandlerFor (get_data_from_settings env).2.1]⟩,
             LOG_LEVELS.map (fun kv => (kv.1,
               (⟨t, [consoleHandler,
                     fileHandlerFor (get_data_from_settings env).2.1]⟩ : PyLogger).isEnabledFor
                 kv.2)),
             false, (get_data_from_settings env).2.1⟩,
            ((get_data_from_settings env).2.2,
             (⟨t, [consoleHandler,
                   fileHandlerFor (get_data_from_settings env).2.1]⟩ : PyLogger)) :: reg,
            mkdirParents fs (get_data_from_settings env).2.1.dropLast) := by
    unfold Logger.init
    dsimp only
    rw [get_logger_fresh _ _ _ _ _ t ht hfresh]
  have hget2 : getLogger (get_data_from_settings env).2.2
      (((get_data_from_settings env).2.2,
        (⟨t, [consoleHandler,
              fileHandlerFor (get_data_from_settings env).2.1]⟩ : PyLogger)) :: reg) =
      ⟨t, [consoleHandler, fileHandlerFor (get_data_from_settings env).2.1]⟩ :=
    getLogger_cons_self _ _ _
  have hsA : ((getLogger (get_data_from_settings env).2.2
      (((get_data_from_settings env).2.2,
        (⟨t, [consoleHandler,
              fileHandlerFor (get_data_from_settings env).2.1]⟩ : PyLogger)) :: reg)).handlers.filter
        isStreamHandler) ≠ [] := by
    rw [hget2]
    simp [isStreamHandler, consoleHandler, fileHandlerFor]
  have hfA : ((getLogger (get_data_from_settings env).2.2
      (((get_data_from_settings env).2.2,
        (⟨t, [consoleHandler,
              fileHandlerFor (get_data_from_settings env).2.1]⟩ : PyLogger)) :: reg)).handlers.filter
        isFileHandler) ≠ [] := by
    rw [hget2]
    simp [isFileHandler, consoleHandler, fileHandlerFor]
  have h2raw := get_logger_no_attach (get_data_from_settings env).1
    (get_data_from_settings env).2.1 (get_data_from_settings env).2.2
    (((get_data_from_settings env).2.2,
      (⟨t, [consoleHandler,
            fileHandlerFor (get_data_from_settings env).2.1]⟩ : PyLogger)) :: reg)
    (mkdirParents fs (get_data_from_settings env).2.1.dropLast) t ht hsA hfA
  rw [hget2] at h2raw
  have h2 : Logger.init env
      (((get_data_from_settings env).2.2,
        (⟨t, [consoleHandler,
              fileHandlerFor (get_data_from_settings env).2.1]⟩ : PyLogger)) :: reg)
      (mkdirParents fs (get_data_from_settings env).2.1.dropLast) =
      some (⟨⟨t, [consoleHandler, fileHandlerFor (get_data_from_settings env).2.1]⟩,
             LOG_LEVELS.map (fun kv => (kv.1,
               (⟨t, [consoleHandler,
                     fileHandlerFor (get_data_from_settings env).2.1]⟩ : PyLogger).isEnabledFor
                 kv.2)),
             false, (get_data_from_settings env).2.1⟩,
            ((get_data_from_settings env).2.2,
             (⟨t, [consoleHandler,
                   fileHandlerFor (get_data_from_settings env).2.1]⟩ : PyLogger)) ::
              ((get_data_from_settings env).2.2,
               (⟨t, [consoleHandler,
                     fileHandlerFor (get_data_from_settings env).2.1]⟩ : PyLogger)) :: reg,
            mkdirParents fs (get_data_from_settings env).2.1.dropLast) := by
    unfold Logger.init
    dsimp only
    rw [h2raw]
  refine ⟨_, _, _, _, _, _, h1, h2, rfl, rfl, ?_, ?_, ?_⟩
  · simp [isStreamHandler, isFileHandler, consoleHandler, fileHandlerFor]
  · simp [isFileHandler, consoleHandler, fileHandlerFor]
  · rw [getLogger_cons_self]

theorem C3_witness :
    (LOG_LEVELS.lookup (get_data_from_settings sampleEnv).1 = some 20) ∧
    (getLogger (get_data_from_settings sampleEnv).2.2 ([] : Registry) = freshLogger) ∧
    (∃ l1 reg1 fs1 l2 reg2 fs2,
      Logger.init sampleEnv [] [] = some (l1, reg1, fs1) ∧
      Logger.init sampleEnv reg1 fs1 = some (l2, reg2, fs2) ∧
      l1.logger.handlers =
        [consoleHandler, fileHandlerFor (get_data_from_settings sampleEnv).2.1] ∧
      l2.logger.handlers = l1.logger.handlers ∧
      (l1.logger.handlers.filter fun h => isStreamHandler h && !(isFileHandler h)).length = 1 ∧
      (l1.logger.handlers.filter isFileHandler).length = 1 ∧
      (getLogger (get_data_from_settings sampleEnv).2.2 reg2).handlers = l1.logger.handlers) :=
  ⟨by decide, rfl, C3_repeated_construction sampleEnv [] [] 20 (by decide) rfl⟩
